import Mathlib

/-!
Shallow embedding of the xk6-dashboard output extension.

Sources:
* `dashboard.go` — the `Output` lifecycle (`New`, `Start`, `Stop`), the
  periodic `flushMetrics` batch splitter and the `MetricWorker` dispatch loop.
* `internal` package (the Prometheus adapter) — the fixed instrument catalog
  (`builtinMetrics`), `NewPrometheusAdapter`, `HandleSample` and the four
  typed handlers `handleCounter`, `handleGauge`, `handleRate`, `handleTrend`.

Modelling conventions:
* Go `float64` sample values are modelled as exact rationals `ℚ`; the spec's
  accumulation properties are stated "within floating-point tolerance", which
  the rational model realises exactly.
* A Prometheus counter or gauge is its current value (`ℚ`); a histogram is the
  ordered list of values passed to `Observe`.
* `k6`'s `metrics.MetricType` is an integer enumeration
  (`Counter = 0, Gauge = 1, Rate = 2, Trend = 3`); it is modelled as `Int` so
  that unknown type tags are representable, exactly as in Go.
* Side effects are made explicit: `HandleSample` returns the new registry
  state together with the list of warning messages it logs; the lifecycle
  functions return an explicit trace of the effects they perform, in the
  order the Go code performs them.  External library calls (URL query
  parsing, `gorilla/schema` decoding, `net.Listen`, `prometheus.Register`)
  are parameters of the model, since their code is outside this repository.
-/

namespace XK6Dashboard

/-- A k6 metric sample: metric name, metric type tag and numeric value
(`metrics.Sample` as seen by `HandleSample`).  The type tag is k6's integer
enumeration: `Counter = 0`, `Gauge = 1`, `Rate = 2`, `Trend = 3`. -/
structure Sample where
  name : String
  type : Int
  value : ℚ
deriving DecidableEq

/-- The fixed instrument catalog of the adapter: the `builtinMetrics` struct
of the `internal` package.  Counters and gauges hold their current value;
histograms hold the ordered list of observed values. -/
structure BuiltinMetrics where
  VUS : ℚ
  VUSMax : ℚ
  HTTPReqBlockedCurrent : ℚ
  HTTPReqConnectingCurrent : ℚ
  HTTPReqDurationCurrent : ℚ
  HTTPReqFailedCurrent : ℚ
  HTTPReqReceivingCurrent : ℚ
  HTTPReqSendingCurrent : ℚ
  HTTPReqTLSHandshakingCurrent : ℚ
  HTTPReqWaitingCurrent : ℚ
  IterationDurationCurrent : ℚ
  DataReceived : ℚ
  DataSent : ℚ
  HTTPReqs : ℚ
  Iterations : ℚ
  DroppedIterations : ℚ
  HTTPReqBlocked : List ℚ
  HTTPReqConnecting : List ℚ
  HTTPReqDuration : List ℚ
  HTTPReqReceiving : List ℚ
  HTTPReqSending : List ℚ
  HTTPReqTLSHandshaking : List ℚ
  HTTPReqWaiting : List ℚ
  IterationDuration : List ℚ
  Checks : List ℚ
  HTTPReqFailed : List ℚ
deriving DecidableEq

/-- The freshly constructed instrument catalog of `NewPrometheusAdapter`:
every counter and gauge starts at `0`, every histogram with no
observations. -/
def initBuiltinMetrics : BuiltinMetrics where
  VUS := 0
  VUSMax := 0
  HTTPReqBlockedCurrent := 0
  HTTPReqConnectingCurrent := 0
  HTTPReqDurationCurrent := 0
  HTTPReqFailedCurrent := 0
  HTTPReqReceivingCurrent := 0
  HTTPReqSendingCurrent := 0
  HTTPReqTLSHandshakingCurrent := 0
  HTTPReqWaitingCurrent := 0
  IterationDurationCurrent := 0
  DataReceived := 0
  DataSent := 0
  HTTPReqs := 0
  Iterations := 0
  DroppedIterations := 0
  HTTPReqBlocked := []
  HTTPReqConnecting := []
  HTTPReqDuration := []
  HTTPReqReceiving := []
  HTTPReqSending := []
  HTTPReqTLSHandshaking := []
  HTTPReqWaiting := []
  IterationDuration := []
  Checks := []
  HTTPReqFailed := []

/-- Model of `(*PrometheusAdapter).handleCounter`: a name switch; a matching case adds
the sample value to the corresponding counter, the default case returns with
no change (and no log). -/
def handleCounter (a : BuiltinMetrics) (sample : Sample) : BuiltinMetrics :=
  if sample.name = "data_received" then
    { a with DataReceived := a.DataReceived + sample.value }
  else if sample.name = "data_sent" then
    { a with DataSent := a.DataSent + sample.value }
  else if sample.name = "http_reqs" then
    { a with HTTPReqs := a.HTTPReqs + sample.value }
  else if sample.name = "iterations" then
    { a with Iterations := a.Iterations + sample.value }
  else
    a

/-- Model of `(*PrometheusAdapter).handleGauge`: a name switch; a matching case sets
the corresponding gauge to the sample value, the default case returns with no
change (and no log). -/
def handleGauge (a : BuiltinMetrics) (sample : Sample) : BuiltinMetrics :=
  if sample.name = "vus" then
    { a with VUS := sample.value }
  else if sample.name = "vus_max" then
    { a with VUSMax := sample.value }
  else if sample.name = "http_req_blocked_current" then
    { a with HTTPReqBlockedCurrent := sample.value }
  else if sample.name = "http_req_connecting_current" then
    { a with HTTPReqConnectingCurrent := sample.value }
  else if sample.name = "http_req_duration_current" then
    { a with HTTPReqDurationCurrent := sample.value }
  else if sample.name = "http_req_receiving_current" then
    { a with HTTPReqReceivingCurrent := sample.value }
  else if sample.name = "http_req_sending_current" then
    { a with HTTPReqSendingCurrent := sample.value }
  else if sample.name = "http_req_tls_handshaking_current" then
    { a with HTTPReqTLSHandshakingCurrent := sample.value }
  else if sample.name = "http_req_waiting_current" then
    { a with HTTPReqWaitingCurrent := sample.value }
  else if sample.name = "iteration_duration_current" then
    { a with IterationDurationCurrent := sample.value }
  else
    a

/-- Model of `(*PrometheusAdapter).handleRate`: a name switch; a matching case records
one observation in the corresponding histogram, the default case returns with
no change (and no log). -/
def handleRate (a : BuiltinMetrics) (sample : Sample) : BuiltinMetrics :=
  if sample.name = "checks" then
    { a with Checks := a.Checks ++ [sample.value] }
  else if sample.name = "http_req_failed" then
    { a with HTTPReqFailed := a.HTTPReqFailed ++ [sample.value] }
  else
    a

/-- Model of `(*PrometheusAdapter).handleTrend`: a name switch; a matching case sets
the paired "current" gauge to the sample value and records one observation in
the corresponding histogram, the default case returns with no change (and no
log). -/
def handleTrend (a : BuiltinMetrics) (sample : Sample) : BuiltinMetrics :=
  if sample.name = "http_req_blocked" then
    { a with HTTPReqBlockedCurrent := sample.value,
             HTTPReqBlocked := a.HTTPReqBlocked ++ [sample.value] }
  else if sample.name = "http_req_connecting" then
    { a with HTTPReqConnectingCurrent := sample.value,
             HTTPReqConnecting := a.HTTPReqConnecting ++ [sample.value] }
  else if sample.name = "http_req_duration" then
    { a with HTTPReqDurationCurrent := sample.value,
             HTTPReqDuration := a.HTTPReqDuration ++ [sample.value] }
  else if sample.name = "http_req_receiving" then
    { a with HTTPReqReceivingCurrent := sample.value,
             HTTPReqReceiving := a.HTTPReqReceiving ++ [sample.value] }
  else if sample.name = "http_req_sending" then
    { a with HTTPReqSendingCurrent := sample.value,
             HTTPReqSending := a.HTTPReqSending ++ [sample.value] }
  else if sample.name = "http_req_tls_handshaking" then
    { a with HTTPReqTLSHandshakingCurrent := sample.value,
             HTTPReqTLSHandshaking := a.HTTPReqTLSHandshaking ++ [sample.value] }
  else if sample.name = "http_req_waiting" then
    { a with HTTPReqWaitingCurrent := sample.value,
             HTTPReqWaiting := a.HTTPReqWaiting ++ [sample.value] }
  else if sample.name = "iteration_duration" then
    { a with IterationDurationCurrent := sample.value,
             IterationDuration := a.IterationDuration ++ [sample.value] }
  else
    a

/-- Model of `(*PrometheusAdapter).HandleSample`: a switch on the sample's metric type
tag selects the handler; the default case logs a warning and drops the
sample.  Returns the new registry state together with the warnings logged by
this call (the typed handlers log nothing). -/
def HandleSample (a : BuiltinMetrics) (sample : Sample) : BuiltinMetrics × List String :=
  if sample.type = 0 then (handleCounter a sample, [])
  else if sample.type = 1 then (handleGauge a sample, [])
  else if sample.type = 2 then (handleRate a sample, [])
  else if sample.type = 3 then (handleTrend a sample, [])
  else (a, ["Unknown metric type: " ++ toString sample.type])

/-- The per-batch body of `MetricWorker`: one worker iterates the samples of
its batch in order, invoking `HandleSample` on each; the logged warnings are
collected in order. -/
def processSamples (a : BuiltinMetrics) (samples : List Sample) : BuiltinMetrics × List String :=
  samples.foldl (fun acc s =>
    let r := HandleSample acc.1 s
    (r.1, acc.2 ++ r.2)) (a, [])

/-- The metric names recognised by `handleCounter`'s switch. -/
def counterNames : List String :=
  ["data_received", "data_sent", "http_reqs", "iterations"]

/-- The metric names recognised by `handleGauge`'s switch. -/
def gaugeNames : List String :=
  ["vus", "vus_max", "http_req_blocked_current", "http_req_connecting_current",
   "http_req_duration_current", "http_req_receiving_current",
   "http_req_sending_current", "http_req_tls_handshaking_current",
   "http_req_waiting_current", "iteration_duration_current"]

/-- The metric names recognised by `handleRate`'s switch. -/
def rateNames : List String :=
  ["checks", "http_req_failed"]

/-- The metric names recognised by `handleTrend`'s switch. -/
def trendNames : List String :=
  ["http_req_blocked", "http_req_connecting", "http_req_duration",
   "http_req_receiving", "http_req_sending", "http_req_tls_handshaking",
   "http_req_waiting", "iteration_duration"]

/-- Lookup of a counter instrument's value by its metric name, following the
name-to-field mapping of `handleCounter`. -/
def counterValue (a : BuiltinMetrics) : String → Option ℚ
  | "data_received" => some a.DataReceived
  | "data_sent" => some a.DataSent
  | "http_reqs" => some a.HTTPReqs
  | "iterations" => some a.Iterations
  | _ => none

/-- Lookup of a gauge instrument's value by its metric name, following the
name-to-field mapping of `handleGauge`. -/
def gaugeValue (a : BuiltinMetrics) : String → Option ℚ
  | "vus" => some a.VUS
  | "vus_max" => some a.VUSMax
  | "http_req_blocked_current" => some a.HTTPReqBlockedCurrent
  | "http_req_connecting_current" => some a.HTTPReqConnectingCurrent
  | "http_req_duration_current" => some a.HTTPReqDurationCurrent
  | "http_req_receiving_current" => some a.HTTPReqReceivingCurrent
  | "http_req_sending_current" => some a.HTTPReqSendingCurrent
  | "http_req_tls_handshaking_current" => some a.HTTPReqTLSHandshakingCurrent
  | "http_req_waiting_current" => some a.HTTPReqWaitingCurrent
  | "iteration_duration_current" => some a.IterationDurationCurrent
  | _ => none

/-- Lookup of a trend metric's paired "current" gauge by the trend metric's
name, following the gauge half of `handleTrend`'s mapping. -/
def trendGauge (a : BuiltinMetrics) : String → Option ℚ
  | "http_req_blocked" => some a.HTTPReqBlockedCurrent
  | "http_req_connecting" => some a.HTTPReqConnectingCurrent
  | "http_req_duration" => some a.HTTPReqDurationCurrent
  | "http_req_receiving" => some a.HTTPReqReceivingCurrent
  | "http_req_sending" => some a.HTTPReqSendingCurrent
  | "http_req_tls_handshaking" => some a.HTTPReqTLSHandshakingCurrent
  | "http_req_waiting" => some a.HTTPReqWaitingCurrent
  | "iteration_duration" => some a.IterationDurationCurrent
  | _ => none

/-- Lookup of a trend metric's histogram (its ordered observations) by the
trend metric's name, following the histogram half of `handleTrend`'s
mapping. -/
def trendObs (a : BuiltinMetrics) : String → Option (List ℚ)
  | "http_req_blocked" => some a.HTTPReqBlocked
  | "http_req_connecting" => some a.HTTPReqConnecting
  | "http_req_duration" => some a.HTTPReqDuration
  | "http_req_receiving" => some a.HTTPReqReceiving
  | "http_req_sending" => some a.HTTPReqSending
  | "http_req_tls_handshaking" => some a.HTTPReqTLSHandshaking
  | "http_req_waiting" => some a.HTTPReqWaiting
  | "iteration_duration" => some a.IterationDuration
  | _ => none

/-- The Go slice expression `buf[lo:hi]` (for `0 ≤ lo ≤ hi ≤ len buf`, the
only way `flushMetrics` uses it). -/
def goSlice (buf : List α) (lo hi : Int) : List α :=
  (buf.drop lo.toNat).take (hi.toNat - lo.toNat)

/-- The `for lower <= bufferSize-1` loop of `(*Output).flushMetrics`, with
the loop-local variables `lower` and `upper` as explicit `Int` arguments
(Go `int` arithmetic) and a fuel argument for termination; each iteration
emits the slice `bufferSamples[lower:upper]` (a send on the dispatch
channel), then advances `lower` to `upper` and `upper` by `batchSize`,
clamped to `bufferSize`. -/
def flushLoop (buf : List α) (bufferSize batchSize : Int) :
    Nat → Int → Int → List (List α)
  | 0, _, _ => []
  | fuel + 1, lower, upper =>
    if lower ≤ bufferSize - 1 then
      goSlice buf lower upper ::
        flushLoop buf bufferSize batchSize fuel upper
          (if upper + batchSize ≥ bufferSize then bufferSize else upper + batchSize)
    else []

/-- Model of `(*Output).flushMetrics`: drains the buffered samples and pushes
consecutive windows of at most `batchSize = 10000` onto the dispatch
channel.  The result is the ordered list of the groups sent on the channel.
The initial `upper` is `bufferSize` if `batchSize > bufferSize`, else
`batchSize`, exactly as in the source; the fuel `buf.length + 1` is an upper
bound on the number of loop iterations. -/
def flushMetrics (buf : List α) : List (List α) :=
  let batchSize : Int := 10000
  let bufferSize : Int := buf.length
  let upper : Int := if batchSize > bufferSize then bufferSize else batchSize
  flushLoop buf bufferSize batchSize (buf.length + 1) 0 upper

/-- Reference chunking: split a list into consecutive windows of at most
10000 elements, the last window possibly shorter. -/
def flushChunks : List α → List (List α)
  | [] => []
  | a :: l => ((a :: l).take 10000) :: flushChunks ((a :: l).drop 10000)
termination_by l => l.length
decreasing_by simp [List.length_drop]; omega

theorem flushChunks_nil : flushChunks ([] : List α) = [] := by
  simp [flushChunks]

theorem flushChunks_cons (l : List α) (h : l ≠ []) :
    flushChunks l = l.take 10000 :: flushChunks (l.drop 10000) := by
  cases l with
  | nil => exact absurd rfl h
  | cons a t => rw [flushChunks]

theorem flushLoop_eq_chunks (buf : List α) :
    ∀ (fuel lower : Nat), buf.length ≤ lower + fuel →
      flushLoop buf (buf.length : Int) 10000 fuel lower
          (min ((lower : Int) + 10000) (buf.length : Int)) =
        flushChunks (buf.drop lower) := by
  intro fuel
  induction fuel with
  | zero =>
    intro lower h
    rw [List.drop_eq_nil_of_le (by omega), flushChunks_nil]
    rfl
  | succ fuel ih =>
    intro lower h
    by_cases hc : lower < buf.length
    · have hcond : ((lower : Int) ≤ (buf.length : Int) - 1) := by omega
      simp only [flushLoop, if_pos hcond]
      have hL : buf.drop lower ≠ [] := by
        rw [Ne, List.drop_eq_nil_iff]; omega
      rw [flushChunks_cons _ hL]
      have hhead : goSlice buf (lower : Int) (min ((lower : Int) + 10000) (buf.length : Int)) =
          (buf.drop lower).take 10000 := by
        unfold goSlice
        have h1 : ((lower : Int)).toNat = lower := by omega
        have h2 : (min ((lower : Int) + 10000) ((buf.length : Int))).toNat =
            min (lower + 10000) buf.length := by omega
        rw [h1, h2]
        by_cases hble : buf.length ≤ lower + 10000
        · rw [List.take_of_length_le (by simp [List.length_drop]; omega),
            List.take_of_length_le (by simp [List.length_drop]; omega)]
        · rw [show min (lower + 10000) buf.length - lower = 10000 by omega]
      have hcast : ((min (lower + 10000) buf.length : Nat) : Int) =
          min ((lower : Int) + 10000) (buf.length : Int) := by omega
      have hupper :
          (if min ((lower : Int) + 10000) (buf.length : Int) + 10000 ≥ (buf.length : Int)
            then (buf.length : Int)
            else min ((lower : Int) + 10000) (buf.length : Int) + 10000) =
            min (((min (lower + 10000) buf.length : Nat) : Int) + 10000) (buf.length : Int) := by
        split_ifs with hif <;> omega
      have hdrop : buf.drop (min (lower + 10000) buf.length) = (buf.drop lower).drop 10000 := by
        rw [List.drop_drop]
        by_cases hble : lower + 10000 ≤ buf.length
        · rw [min_eq_left hble]
        · rw [List.drop_eq_nil_of_le (by omega), List.drop_eq_nil_of_le (by omega)]
      rw [hhead, hupper, ← hcast,
        ih (min (lower + 10000) buf.length) (by omega), hdrop]
    · have hcond : ¬ ((lower : Int) ≤ (buf.length : Int) - 1) := by omega
      simp only [flushLoop, if_neg hcond]
      rw [List.drop_eq_nil_of_le (by omega), flushChunks_nil]

theorem flushMetrics_eq_chunks (buf : List α) : flushMetrics buf = flushChunks buf := by
  have h0 : (if (10000 : Int) > (buf.length : Int) then (buf.length : Int) else 10000) =
      min (((0 : Nat) : Int) + 10000) (buf.length : Int) := by
    split_ifs with h <;> omega
  have := flushLoop_eq_chunks buf (buf.length + 1) 0 (by omega)
  rw [List.drop_zero] at this
  simp only [flushMetrics]
  rw [h0]
  exact this

theorem flushChunks_ne_nil (l : List α) (h : l ≠ []) : flushChunks l ≠ [] := by
  rw [flushChunks_cons _ h]
  simp

theorem flushChunks_join (l : List α) : (flushChunks l).flatten = l := by
  generalize hn : l.length = n
  induction n using Nat.strong_induction_on generalizing l with
  | _ n ih =>
    cases l with
    | nil => simp [flushChunks_nil]
    | cons a t =>
      subst hn
      rw [flushChunks_cons _ (by simp), List.flatten_cons,
        ih ((a :: t).drop 10000).length (by simp [List.length_drop]; omega) _ rfl]
      exact List.take_append_drop _ _

theorem flushChunks_mem (l : List α) :
    ∀ b ∈ flushChunks l, b ≠ [] ∧ b.length ≤ 10000 := by
  generalize hn : l.length = n
  induction n using Nat.strong_induction_on generalizing l with
  | _ n ih =>
    cases l with
    | nil => simp [flushChunks_nil]
    | cons a t =>
      subst hn
      rw [flushChunks_cons _ (by simp)]
      intro b hb
      rcases List.mem_cons.mp hb with hb | hb
      · subst hb
        refine ⟨by simp [List.take_eq_nil_iff], ?_⟩
        simp [List.length_take]
      · exact ih ((a :: t).drop 10000).length (by simp [List.length_drop]; omega) _ rfl b hb

theorem flushChunks_dropLast (l : List α) :
    ∀ b ∈ (flushChunks l).dropLast, b.length = 10000 := by
  generalize hn : l.length = n
  induction n using Nat.strong_induction_on generalizing l with
  | _ n ih =>
    cases l with
    | nil => simp [flushChunks_nil]
    | cons a t =>
      subst hn
      rw [flushChunks_cons _ (by simp)]
      by_cases hd : (a :: t).drop 10000 = []
      · rw [hd, flushChunks_nil]
        simp
      · rw [List.dropLast_cons_of_ne_nil (flushChunks_ne_nil _ hd)]
        intro b hb
        rcases List.mem_cons.mp hb with hb | hb
        · subst hb
          have hlen : 10000 < t.length + 1 := by
            simp [List.drop_eq_nil_iff] at hd
            omega
          simp [List.length_take]
          omega
        · exact ih ((a :: t).drop 10000).length (by simp [List.length_drop]; omega) _ rfl b hb

/-- **C1.** `flushMetrics` pushes onto the dispatch channel exactly the
consecutive windows of the drained slice of size at most 10000 — every
window nonempty and of size at most 10000, all windows except possibly the
last of size exactly 10000, in original order so that their concatenation is
the drained slice; a drained set of 25000 samples yields exactly 3 batches
of sizes 10000, 10000, 5000, and an empty drained buffer yields no batch. -/
theorem flushMetrics_batches_spec (buf : List Sample) :
    (flushMetrics buf).flatten = buf
    ∧ (∀ b ∈ flushMetrics buf, b ≠ [] ∧ b.length ≤ 10000)
    ∧ (∀ b ∈ (flushMetrics buf).dropLast, b.length = 10000)
    ∧ (buf.length = 25000 → (flushMetrics buf).map List.length = [10000, 10000, 5000])
    ∧ (buf = [] → flushMetrics buf = []) := by
  rw [flushMetrics_eq_chunks]
  refine ⟨flushChunks_join buf, flushChunks_mem buf, flushChunks_dropLast buf, ?_, ?_⟩
  · intro h
    have h1 : buf ≠ [] := by
      intro hh
      rw [hh] at h
      simp at h
    have h2 : buf.drop 10000 ≠ [] := by
      rw [Ne, List.drop_eq_nil_iff]; omega
    have h3 : (buf.drop 10000).drop 10000 ≠ [] := by
      rw [Ne, List.drop_eq_nil_iff]; simp [List.length_drop]; omega
    have h4 : ((buf.drop 10000).drop 10000).drop 10000 = [] := by
      rw [List.drop_eq_nil_iff]; simp [List.length_drop]; omega
    rw [flushChunks_cons _ h1, flushChunks_cons _ h2, flushChunks_cons _ h3, h4,
      flushChunks_nil]
    simp only [List.map_cons, List.map_nil, List.length_take, List.length_drop, h]
    decide
  · intro h
    rw [h, flushChunks_nil]

/-- Witness for C1 at a concrete drained buffer of 25000 samples. -/
theorem flushMetrics_batches_spec_check :
    (flushMetrics (List.replicate 25000 (⟨"http_reqs", 0, 1⟩ : Sample))).map List.length
      = [10000, 10000, 5000] :=
  (flushMetrics_batches_spec _).2.2.2.1 (List.length_replicate 25000 _)

theorem processSamples_fst_eq (samples : List Sample) :
    ∀ (a : BuiltinMetrics) (logs : List String),
      (samples.foldl (fun acc s =>
          let r := HandleSample acc.1 s
          (r.1, acc.2 ++ r.2)) (a, logs)).1
        = (processSamples a samples).1 := by
  induction samples with
  | nil => intro a logs; rfl
  | cons s rest ih =>
    intro a logs
    simp only [List.foldl_cons, processSamples]
    rw [ih, ih]

theorem processSamples_cons_fst (a : BuiltinMetrics) (s : Sample) (rest : List Sample) :
    (processSamples a (s :: rest)).1 = (processSamples (HandleSample a s).1 rest).1 := by
  conv_lhs => rw [processSamples]
  simp only [List.foldl_cons]
  exact processSamples_fst_eq rest _ _

theorem handleSample_counter_step (name : String) (h : name ∈ counterNames)
    (a : BuiltinMetrics) (v : ℚ) :
    counterValue (HandleSample a ⟨name, 0, v⟩).1 name
      = (counterValue a name).map (· + v) := by
  fin_cases h <;> simp [HandleSample, handleCounter, counterValue]

theorem counter_accumulate_aux (name : String) (h : name ∈ counterNames) :
    ∀ (N : Nat) (a : BuiltinMetrics) (v : ℚ),
      counterValue (processSamples a (List.replicate N ⟨name, 0, v⟩)).1 name
        = (counterValue a name).map (fun x => x + N * v) := by
  intro N
  induction N with
  | zero =>
    intro a v
    simp [processSamples]
  | succ N ih =>
    intro a v
    rw [List.replicate_succ, processSamples_cons_fst, ih,
      handleSample_counter_step name h, Option.map_map]
    congr 1
    funext x
    simp only [Function.comp_apply]
    push_cast
    ring

/-- C2: for every metric name recognised by the Counter handler, processing
`N` Counter samples of that name and value `v` adds `N·v` to that counter
instrument; in particular five `http_reqs` samples of value 1 from the fresh
registry leave the `http_reqs` counter at 5. -/
theorem counter_accumulates_spec :
    (∀ name ∈ counterNames, ∀ (a : BuiltinMetrics) (v : ℚ) (N : Nat),
        counterValue (processSamples a (List.replicate N ⟨name, 0, v⟩)).1 name
          = (counterValue a name).map (fun x => x + N * v))
    ∧ (processSamples initBuiltinMetrics
        (List.replicate 5 (⟨"http_reqs", 0, 1⟩ : Sample))).1.HTTPReqs = 5 := by
  constructor
  · intro name h a v N
    exact counter_accumulate_aux name h N a v
  · have h5 := counter_accumulate_aux "http_reqs" (by simp [counterNames])
      5 initBuiltinMetrics 1
    simp [counterValue, initBuiltinMetrics] at h5
    exact h5

/-- Witness for C2 at a concrete recognised counter name. -/
theorem counter_accumulates_spec_check :
    counterValue (processSamples initBuiltinMetrics
        (List.replicate 3 (⟨"data_sent", 0, 2⟩ : Sample))).1 "data_sent"
      = (counterValue initBuiltinMetrics "data_sent").map (fun x => x + 3 * 2) :=
  counter_accumulates_spec.1 "data_sent" (by simp [counterNames]) initBuiltinMetrics 2 3

theorem handleSample_gauge_step (name : String) (h : name ∈ gaugeNames)
    (a : BuiltinMetrics) (v : ℚ) :
    gaugeValue (HandleSample a ⟨name, 1, v⟩).1 name = some v := by
  fin_cases h <;> simp [HandleSample, handleGauge, gaugeValue]

theorem gauge_last_aux (name : String) (h : name ∈ gaugeNames) :
    ∀ (vs : List ℚ) (a : BuiltinMetrics), vs ≠ [] →
      gaugeValue (processSamples a (vs.map (fun v => ⟨name, 1, v⟩))).1 name
        = vs.getLast? := by
  intro vs
  induction vs with
  | nil => intro a hne; exact absurd rfl hne
  | cons v rest ih =>
    intro a _
    rw [List.map_cons, processSamples_cons_fst]
    cases rest with
    | nil =>
      simp only [List.map_nil]
      rw [show (processSamples (HandleSample a ⟨name, 1, v⟩).1 []).1
          = (HandleSample a ⟨name, 1, v⟩).1 from rfl]
      rw [handleSample_gauge_step name h]
      rfl
    | cons w t =>
      rw [ih _ (by simp)]
      exact (List.getLast?_cons_cons ..).symm

/-- C3: for every non-empty sequence of Gauge samples with the same
recognised name, processed in order by one worker on a single batch, the
final gauge value is the value of the last sample, independent of the
intermediate values. -/
theorem gauge_last_writer_spec :
    ∀ name ∈ gaugeNames, ∀ (vs : List ℚ) (a : BuiltinMetrics), vs ≠ [] →
      gaugeValue (processSamples a (vs.map (fun v => ⟨name, 1, v⟩))).1 name
        = vs.getLast? :=
  fun name h vs a hne => gauge_last_aux name h vs a hne

/-- Witness for C3 at a concrete gauge name and value sequence. -/
theorem gauge_last_writer_spec_check :
    gaugeValue (processSamples initBuiltinMetrics
        ([1, 3].map (fun v => ⟨"vus", 1, v⟩))).1 "vus" = [1, (3 : ℚ)].getLast? :=
  gauge_last_writer_spec "vus" (by simp [gaugeNames]) [1, 3] initBuiltinMetrics (by simp)

theorem handleSample_trend_step (name : String) (h : name ∈ trendNames)
    (a : BuiltinMetrics) (v : ℚ) :
    trendGauge (HandleSample a ⟨name, 3, v⟩).1 name = some v
    ∧ trendObs (HandleSample a ⟨name, 3, v⟩).1 name
        = (trendObs a name).map (· ++ [v]) := by
  fin_cases h <;> simp [HandleSample, handleTrend, trendGauge, trendObs]

theorem trend_seq_aux (name : String) (h : name ∈ trendNames) :
    ∀ (vs : List ℚ) (a : BuiltinMetrics), vs ≠ [] →
      trendGauge (processSamples a (vs.map (fun v => ⟨name, 3, v⟩))).1 name
          = vs.getLast?
      ∧ trendObs (processSamples a (vs.map (fun v => ⟨name, 3, v⟩))).1 name
          = (trendObs a name).map (· ++ vs) := by
  intro vs
  induction vs with
  | nil => intro a hne; exact absurd rfl hne
  | cons v rest ih =>
    intro a _
    rw [List.map_cons, processSamples_cons_fst]
    cases rest with
    | nil =>
      simp only [List.map_nil]
      rw [show (processSamples (HandleSample a ⟨name, 3, v⟩).1 []).1
          = (HandleSample a ⟨name, 3, v⟩).1 from rfl]
      exact ⟨(handleSample_trend_step name h a v).1,
        (handleSample_trend_step name h a v).2⟩
    | cons w t =>
      refine ⟨?_, ?_⟩
      · rw [(ih _ (by simp)).1]
        exact (List.getLast?_cons_cons ..).symm
      · rw [(ih _ (by simp)).2, (handleSample_trend_step name h a v).2,
          Option.map_map]
        congr 1
        funext x
        simp

/-- C4: a Trend sample with a recognised name performs exactly two updates —
it sets the paired "current" gauge to the sample value and appends one
observation to that name's histogram, touching no other field; over a
sequence, the gauge ends at the last value and the histogram gains exactly
those observations in order; one `http_req_duration` sample of value 120.5
yields `http_req_duration_current = 120.5` and one observation at 120.5. -/
theorem trend_dual_update_spec :
    (∀ (a : BuiltinMetrics) (v : ℚ),
      (HandleSample a ⟨"http_req_blocked", 3, v⟩).1
          = { a with HTTPReqBlockedCurrent := v,
                     HTTPReqBlocked := a.HTTPReqBlocked ++ [v] }
      ∧ (HandleSample a ⟨"http_req_connecting", 3, v⟩).1
          = { a with HTTPReqConnectingCurrent := v,
                     HTTPReqConnecting := a.HTTPReqConnecting ++ [v] }
      ∧ (HandleSample a ⟨"http_req_duration", 3, v⟩).1
          = { a with HTTPReqDurationCurrent := v,
                     HTTPReqDuration := a.HTTPReqDuration ++ [v] }
      ∧ (HandleSample a ⟨"http_req_receiving", 3, v⟩).1
          = { a with HTTPReqReceivingCurrent := v,
                     HTTPReqReceiving := a.HTTPReqReceiving ++ [v] }
      ∧ (HandleSample a ⟨"http_req_sending", 3, v⟩).1
          = { a with HTTPReqSendingCurrent := v,
                     HTTPReqSending := a.HTTPReqSending ++ [v] }
      ∧ (HandleSample a ⟨"http_req_tls_handshaking", 3, v⟩).1
          = { a with HTTPReqTLSHandshakingCurrent := v,
                     HTTPReqTLSHandshaking := a.HTTPReqTLSHandshaking ++ [v] }
      ∧ (HandleSample a ⟨"http_req_waiting", 3, v⟩).1
          = { a with HTTPReqWaitingCurrent := v,
                     HTTPReqWaiting := a.HTTPReqWaiting ++ [v] }
      ∧ (HandleSample a ⟨"iteration_duration", 3, v⟩).1
          = { a with IterationDurationCurrent := v,
                     IterationDuration := a.IterationDuration ++ [v] })
    ∧ (∀ name ∈ trendNames, ∀ (vs : List ℚ) (a : BuiltinMetrics), vs ≠ [] →
        trendGauge (processSamples a (vs.map (fun v => ⟨name, 3, v⟩))).1 name
            = vs.getLast?
        ∧ trendObs (processSamples a (vs.map (fun v => ⟨name, 3, v⟩))).1 name
            = (trendObs a name).map (· ++ vs))
    ∧ ((processSamples initBuiltinMetrics
          [⟨"http_req_duration", 3, 120.5⟩]).1.HTTPReqDurationCurrent = 120.5
      ∧ (processSamples initBuiltinMetrics
          [⟨"http_req_duration", 3, 120.5⟩]).1.HTTPReqDuration = [120.5]) := by
  refine ⟨?_, ?_, ?_⟩
  · intro a v
    refine ⟨?_, ?_, ?_, ?_, ?_, ?_, ?_, ?_⟩ <;> simp [HandleSample, handleTrend]
  · intro name h vs a hne
    exact trend_seq_aux name h vs a hne
  · constructor <;> simp [processSamples, HandleSample, handleTrend, initBuiltinMetrics]

/-- Witness for C4 at a concrete trend name and value sequence. -/
theorem trend_dual_update_spec_check :
    trendGauge (processSamples initBuiltinMetrics
        ([2, 7].map (fun v => ⟨"http_req_waiting", 3, v⟩))).1 "http_req_waiting"
      = [2, (7 : ℚ)].getLast?
    ∧ trendObs (processSamples initBuiltinMetrics
        ([2, 7].map (fun v => ⟨"http_req_waiting", 3, v⟩))).1 "http_req_waiting"
      = (trendObs initBuiltinMetrics "http_req_waiting").map (· ++ [2, 7]) :=
  trend_dual_update_spec.2.1 "http_req_waiting" (by simp [trendNames])
    [2, 7] initBuiltinMetrics (by simp)

/-- C5: a sample whose type tag is not one of Counter, Gauge, Rate, Trend, or
whose name is not in its handler's fixed catalog, leaves every instrument of
the registry unchanged (the model is a total function, so no panic and no
partial update is possible). -/
theorem unrecognized_sample_frame_spec :
    ∀ (a : BuiltinMetrics) (s : Sample),
      (¬(s.type = 0 ∨ s.type = 1 ∨ s.type = 2 ∨ s.type = 3)
        ∨ (s.type = 0 ∧ s.name ∉ counterNames)
        ∨ (s.type = 1 ∧ s.name ∉ gaugeNames)
        ∨ (s.type = 2 ∧ s.name ∉ rateNames)
        ∨ (s.type = 3 ∧ s.name ∉ trendNames)) →
      (HandleSample a s).1 = a := by
  intro a s hdrop
  rcases hdrop with h | ⟨ht, hn⟩ | ⟨ht, hn⟩ | ⟨ht, hn⟩ | ⟨ht, hn⟩
  · push_neg at h
    simp [HandleSample, h.1, h.2.1, h.2.2.1, h.2.2.2]
  · simp [counterNames] at hn
    simp [HandleSample, ht, handleCounter, hn]
  · simp [gaugeNames] at hn
    simp [HandleSample, ht, handleGauge, hn]
  · simp [rateNames] at hn
    simp [HandleSample, ht, handleRate, hn]
  · simp [trendNames] at hn
    simp [HandleSample, ht, handleTrend, hn]

/-- Witness for C5 at a concrete unrecognised name of a recognised type. -/
theorem unrecognized_sample_frame_spec_check :
    (HandleSample initBuiltinMetrics ⟨"definitely_not_a_metric", 0, 1⟩).1
      = initBuiltinMetrics :=
  unrecognized_sample_frame_spec _ _
    (Or.inr (Or.inl ⟨rfl, by simp [counterNames]⟩))

/-- C6 counterexample: a Counter-typed sample with a name outside the
catalog is dropped (registry unchanged) but, contrary to the claim, nothing
is logged: `handleCounter`'s default case returns silently, so the warning
list is empty. -/
theorem unknown_name_drop_not_logged :
    (HandleSample initBuiltinMetrics ⟨"made_up_metric", 0, 1⟩).1 = initBuiltinMetrics
    ∧ (HandleSample initBuiltinMetrics ⟨"made_up_metric", 0, 1⟩).2 = [] := by
  constructor <;> simp [HandleSample, handleCounter]

/-- C6 amended: a sample whose type tag is unknown is dropped and logged at
warning level; a sample with a recognised type but a name outside that
handler's catalog is dropped silently, with no log; in both cases the
registry is unchanged and processing of the rest of the batch continues
unaffected. -/
theorem drop_semantics_spec :
    ∀ (a : BuiltinMetrics) (s : Sample) (rest : List Sample),
      (¬(s.type = 0 ∨ s.type = 1 ∨ s.type = 2 ∨ s.type = 3) →
        HandleSample a s = (a, ["Unknown metric type: " ++ toString s.type]))
      ∧ ((s.type = 0 ∧ s.name ∉ counterNames) ∨ (s.type = 1 ∧ s.name ∉ gaugeNames)
          ∨ (s.type = 2 ∧ s.name ∉ rateNames) ∨ (s.type = 3 ∧ s.name ∉ trendNames) →
        HandleSample a s = (a, []))
      ∧ ((HandleSample a s).1 = a →
        (processSamples a (s :: rest)).1 = (processSamples a rest).1) := by
  intro a s rest
  refine ⟨?_, ?_, ?_⟩
  · intro h
    push_neg at h
    simp [HandleSample, h.1, h.2.1, h.2.2.1, h.2.2.2]
  · intro h
    rcases h with ⟨ht, hn⟩ | ⟨ht, hn⟩ | ⟨ht, hn⟩ | ⟨ht, hn⟩
    · simp [counterNames] at hn
      simp [HandleSample, ht, handleCounter, hn]
    · simp [gaugeNames] at hn
      simp [HandleSample, ht, handleGauge, hn]
    · simp [rateNames] at hn
      simp [HandleSample, ht, handleRate, hn]
    · simp [trendNames] at hn
      simp [HandleSample, ht, handleTrend, hn]
  · intro h
    rw [processSamples_cons_fst, h]

/-- Witness for C6 (amended) at a concrete unknown metric type. -/
theorem drop_semantics_spec_check :
    HandleSample initBuiltinMetrics ⟨"checks", 99, 1⟩
      = (initBuiltinMetrics, ["Unknown metric type: " ++ toString (99 : Int)]) :=
  (drop_semantics_spec initBuiltinMetrics ⟨"checks", 99, 1⟩ []).1 (by decide)

/-- The `options` struct of `dashboard.go`.  `getopts` builds it with
`Port := 5665`, `Host := ""`, `Period := 10`; `UI` and `Wait` keep Go's zero
values `""` and `0`. -/
structure Options where
  Port : Int
  Host : String
  Period : Int
  UI : String
  Wait : Int
deriving DecidableEq

/-- Model of `getopts`: the defaulted options are built first; an empty
configuration string returns them immediately; otherwise the string is
parsed (`url.ParseQuery`, an external library modelled by the `parseQuery`
parameter) and the values are decoded into the defaulted options
(`gorilla/schema`, modelled by `decode`); either failure is returned as the
error, with no options result. -/
def getopts (parseQuery : String → Except String V)
    (decode : Options → V → Except String Options) (qs : String) :
    Except String Options :=
  let opts : Options := { Port := 5665, Host := "", Period := 10, UI := "", Wait := 0 }
  if qs = "" then Except.ok opts
  else
    match parseQuery qs with
    | Except.error e => Except.error e
    | Except.ok v =>
      match decode opts v with
      | Except.error e => Except.error e
      | Except.ok opts2 => Except.ok opts2

/-- Observable effects of the `Output` lifecycle functions, in the order the
Go code performs them. -/
inductive Effect where
  | listen (addr : String)
  | serveStarted
  | workerStarted
  | flusherStarted (period : Int)
  | flusherStop
  | wgWait
  | sleep (secs : Int)
  | closeChannel
deriving DecidableEq

/-- Model of `(*Output).Start`: parse options; on error return it at once
(before the listener is bound and before any background activity).  Then
bind the listener at `Host:Port`, build the HTTP handler, launch the serving
goroutine and the `MetricWorker` goroutine, and create the periodic
flusher.  `listen`, `mkHandler` and `newFlusher` model the fallible external
calls; the first component of the result is the trace of performed
effects. -/
def StartModel (parseQuery : String → Except String V)
    (decode : Options → V → Except String Options)
    (listen : String → Except String Unit)
    (mkHandler : Options → Except String Unit)
    (newFlusher : Int → Except String Unit)
    (arg : String) : List Effect × Except String Unit :=
  match getopts parseQuery decode arg with
  | Except.error e => ([], Except.error e)
  | Except.ok opts =>
    let addr := opts.Host ++ ":" ++ toString opts.Port
    match listen addr with
    | Except.error e => ([], Except.error e)
    | Except.ok _ =>
      match mkHandler opts with
      | Except.error e => ([Effect.listen addr], Except.error e)
      | Except.ok _ =>
        match newFlusher opts.Period with
        | Except.error e =>
          ([Effect.listen addr, Effect.serveStarted, Effect.workerStarted],
            Except.error e)
        | Except.ok _ =>
          ([Effect.listen addr, Effect.serveStarted, Effect.workerStarted,
            Effect.flusherStarted opts.Period], Except.ok ())

/-- Model of `(*Output).Stop`: `defer close(sampleChannel)` runs last in
every case; the body stops the flusher, waits on the wait group, re-parses
the configuration argument with `getopts` (returning the parse error if it
fails, skipping the grace sleep), and sleeps `Wait` seconds when
`Wait > 0`. -/
def StopModel (parseQuery : String → Except String V)
    (decode : Options → V → Except String Options) (arg : String) :
    List Effect × Except String Unit :=
  let body : List Effect × Except String Unit :=
    match getopts parseQuery decode arg with
    | Except.error e => ([Effect.flusherStop, Effect.wgWait], Except.error e)
    | Except.ok opts =>
      if opts.Wait > 0 then
        ([Effect.flusherStop, Effect.wgWait, Effect.sleep opts.Wait], Except.ok ())
      else
        ([Effect.flusherStop, Effect.wgWait], Except.ok ())
  (body.1 ++ [Effect.closeChannel], body.2)

/-- C7: `getopts ""` returns `Port = 5665`, `Host = ""`, `Period = 10` (and
zero `UI`/`Wait`) with no error; every configuration string that fails query
parsing or option decoding makes `getopts` return that error and no options;
and `Start` returns a `getopts` error to its caller with no effect performed
— before binding the listener and before launching any background
activity. -/
theorem getopts_defaults_and_errors_spec :
    (∀ (parseQuery : String → Except String V)
        (decode : Options → V → Except String Options),
      getopts parseQuery decode ""
        = Except.ok { Port := 5665, Host := "", Period := 10, UI := "", Wait := 0 })
    ∧ (∀ (parseQuery : String → Except String V)
        (decode : Options → V → Except String Options) (qs e : String),
      qs ≠ "" → parseQuery qs = Except.error e →
        getopts parseQuery decode qs = Except.error e)
    ∧ (∀ (parseQuery : String → Except String V)
        (decode : Options → V → Except String Options) (qs : String) (v : V)
        (e : String),
      qs ≠ "" → parseQuery qs = Except.ok v →
      decode { Port := 5665, Host := "", Period := 10, UI := "", Wait := 0 } v
          = Except.error e →
        getopts parseQuery decode qs = Except.error e)
    ∧ (∀ (parseQuery : String → Except String V)
        (decode : Options → V → Except String Options)
        (listen : String → Except String Unit)
        (mkHandler : Options → Except String Unit)
        (newFlusher : Int → Except String Unit) (arg e : String),
      getopts parseQuery decode arg = Except.error e →
        StartModel parseQuery decode listen mkHandler newFlusher arg
          = ([], Except.error e)) := by
  refine ⟨?_, ?_, ?_, ?_⟩
  · intro parseQuery decode
    simp [getopts]
  · intro parseQuery decode qs e hqs hp
    simp [getopts, hqs, hp]
  · intro parseQuery decode qs v e hqs hp hd
    simp [getopts, hqs, hp, hd]
  · intro parseQuery decode listen mkHandler newFlusher arg e h
    simp [StartModel, h]

/-- Witness for C7 with a concrete failing query parser. -/
theorem getopts_defaults_and_errors_spec_check :
    getopts (fun _ => (Except.error "bad" : Except String Unit))
        (fun o _ => Except.ok o) "a;b" = Except.error "bad"
    ∧ StartModel (fun _ => (Except.error "bad" : Except String Unit))
        (fun o _ => Except.ok o) (fun _ => Except.ok ()) (fun _ => Except.ok ())
        (fun _ => Except.ok ()) "a;b" = ([], Except.error "bad") :=
  ⟨getopts_defaults_and_errors_spec.2.1 _ _ "a;b" "bad" (by decide) rfl,
    getopts_defaults_and_errors_spec.2.2.2 _ _ _ _ _ "a;b" "bad"
      (getopts_defaults_and_errors_spec.2.1 _ _ "a;b" "bad" (by decide) rfl)⟩

/-- C10: `Stop` re-parses the configuration argument; if the parse fails,
`Stop` returns the parse error and skips the grace sleep, with the flusher
already stopped and the wait group already waited on, and the channel closed
on return regardless; the sleep of `Wait` seconds happens exactly when the
re-parse succeeds and `Wait > 0`. -/
theorem stop_reparse_spec :
    ∀ (parseQuery : String → Except String V)
      (decode : Options → V → Except String Options) (arg : String),
      (∀ e, getopts parseQuery decode arg = Except.error e →
        StopModel parseQuery decode arg
          = ([Effect.flusherStop, Effect.wgWait, Effect.closeChannel],
              Except.error e))
      ∧ (∀ opts, getopts parseQuery decode arg = Except.ok opts → opts.Wait > 0 →
        StopModel parseQuery decode arg
          = ([Effect.flusherStop, Effect.wgWait, Effect.sleep opts.Wait,
              Effect.closeChannel], Except.ok ()))
      ∧ (∀ opts, getopts parseQuery decode arg = Except.ok opts → ¬opts.Wait > 0 →
        StopModel parseQuery decode arg
          = ([Effect.flusherStop, Effect.wgWait, Effect.closeChannel],
              Except.ok ())) := by
  intro parseQuery decode arg
  refine ⟨?_, ?_, ?_⟩
  · intro e h
    simp [StopModel, h]
  · intro opts h hw
    simp [StopModel, h, hw]
  · intro opts h hw
    simp [StopModel, h, hw]

/-- Witness for C10 with a concrete failing re-parse and a concrete
successful one with `Wait = 0`. -/
theorem stop_reparse_spec_check :
    StopModel (fun _ => (Except.error "bad" : Except String Unit))
        (fun o _ => Except.ok o) "a;b"
      = ([Effect.flusherStop, Effect.wgWait, Effect.closeChannel],
          Except.error "bad")
    ∧ StopModel (fun _ => (Except.error "bad" : Except String Unit))
        (fun o _ => Except.ok o) ""
      = ([Effect.flusherStop, Effect.wgWait, Effect.closeChannel],
          Except.ok ()) :=
  ⟨(stop_reparse_spec _ _ "a;b").1 "bad" rfl,
    (stop_reparse_spec (fun _ => (Except.error "bad" : Except String Unit))
        (fun o _ => Except.ok o) "").2.2
      { Port := 5665, Host := "", Period := 10, UI := "", Wait := 0 } rfl
      (by decide)⟩

/-- The 24 builtin collectors of `NewPrometheusAdapter`, by metric name, in
the order of the registration loop (the `metrics` slice). -/
def builtinCollectorNames : List String :=
  ["vus", "vus_max", "http_req_blocked_current", "http_req_connecting_current",
   "http_req_duration_current", "http_req_receiving_current",
   "http_req_sending_current", "http_req_tls_handshaking_current",
   "http_req_waiting_current", "iteration_duration_current",
   "data_received", "data_sent", "http_reqs", "iterations",
   "dropped_iterations",
   "http_req_blocked", "http_req_connecting", "http_req_receiving",
   "http_req_sending", "http_req_tls_handshaking", "http_req_waiting",
   "http_req_duration", "checks", "http_req_failed"]

/-- The registration loop of `NewPrometheusAdapter`: register each collector
in order; on the first failure stop and report failure, keeping the registry
state reached so far (`registry.Register` mutates the registry in place, so
earlier successful registrations stay).  The external
`(*prometheus.Registry).Register` is modelled by the `register` parameter
(`none` models a non-nil error). -/
def registerLoop (register : ρ → String → Option ρ) : ρ → List String → Bool × ρ
  | r, [] => (true, r)
  | r, n :: rest =>
    match register r n with
    | some r2 => registerLoop register r2 rest
    | none => (false, r)

/-- Model of `NewPrometheusAdapter`: build the fresh instruments, then run
the registration loop over the 24 builtin collectors; any registration error
makes the function return `nil` (`none`), with the registrations performed
before the failure left in the registry. -/
def NewPrometheusAdapter (register : ρ → String → Option ρ) (registry : ρ) :
    Option BuiltinMetrics × ρ :=
  match registerLoop register registry builtinCollectorNames with
  | (true, r) => (some initBuiltinMetrics, r)
  | (false, r) => (none, r)

/-- The `Output` struct as far as construction is concerned: the embedded
adapter (possibly `nil`) and the saved configuration argument. -/
structure OutputModel where
  adapter : Option BuiltinMetrics
  arg : String
deriving DecidableEq

/-- Model of `New`: builds the `Output` with whatever
`NewPrometheusAdapter` returned (possibly `nil`) and always returns it with
a `nil` error. -/
def New (register : ρ → String → Option ρ) (registry : ρ) (configArg : String) :
    Except String OutputModel :=
  Except.ok { adapter := (NewPrometheusAdapter register registry).1, arg := configArg }

/-- Registry state after successfully registering every name of a list in
order; `none` if any registration fails. -/
def registerRun (register : ρ → String → Option ρ) : ρ → List String → Option ρ
  | r, [] => some r
  | r, n :: rest =>
    match register r n with
    | some r2 => registerRun register r2 rest
    | none => none

theorem registerLoop_fail (register : ρ → String → Option ρ) :
    ∀ (names : List String) (i : Nat) (r0 r : ρ), i < names.length →
      registerRun register r0 (names.take i) = some r →
      register r (names.getD i "") = none →
      registerLoop register r0 names = (false, r) := by
  intro names
  induction names with
  | nil =>
    intro i r0 r hi
    simp at hi
  | cons n rest ih =>
    intro i r0 r hi hrun hfail
    cases i with
    | zero =>
      simp [registerRun] at hrun
      subst hrun
      simp [List.getD_cons_zero] at hfail
      simp [registerLoop, hfail]
    | succ i =>
      rw [List.take_succ_cons] at hrun
      simp only [registerRun] at hrun
      cases hreg : register r0 n with
      | none => rw [hreg] at hrun; simp at hrun
      | some r2 =>
        rw [hreg] at hrun
        simp only [List.getD_cons_succ] at hfail
        simp only [registerLoop, hreg]
        exact ih i r2 r (by simp at hi; omega) hrun hfail

/-- C9: if registering the `i`-th builtin collector fails (after the first
`i` registrations succeeded), `NewPrometheusAdapter` returns `nil` while the
registry keeps the collectors registered before the failure — construction
is not atomic — and `New` still returns a non-nil `Output` whose embedded
adapter is `nil`, with no error. -/
theorem new_adapter_nonatomic_spec :
    ∀ (register : ρ → String → Option ρ) (registry : ρ) (i : Nat) (r : ρ),
      i < builtinCollectorNames.length →
      registerRun register registry (builtinCollectorNames.take i) = some r →
      register r (builtinCollectorNames.getD i "") = none →
      NewPrometheusAdapter register registry = (none, r)
      ∧ ∀ arg, New register registry arg
          = Except.ok { adapter := none, arg := arg } := by
  intro register registry i r hi hrun hfail
  have hloop := registerLoop_fail register builtinCollectorNames i registry r hi hrun hfail
  constructor
  · simp [NewPrometheusAdapter, hloop]
  · intro arg
    simp [New, NewPrometheusAdapter, hloop]

/-- Witness for C9: a registry that already contains `"vus"` makes the very
first registration fail. -/
theorem new_adapter_nonatomic_spec_check :
    NewPrometheusAdapter
        (fun (r : List String) n => if n ∈ r then none else some (r ++ [n]))
        ["vus"] = (none, ["vus"])
    ∧ New (fun (r : List String) n => if n ∈ r then none else some (r ++ [n]))
        ["vus"] "cfg" = Except.ok { adapter := none, arg := "cfg" } := by
  have h := new_adapter_nonatomic_spec
      (fun (r : List String) n => if n ∈ r then none else some (r ++ [n]))
      ["vus"] 0 ["vus"] (by simp [builtinCollectorNames]) rfl
      (by simp [builtinCollectorNames])
  exact ⟨h.1, h.2 "cfg"⟩

/-- State of the ingestion pipeline around `Stop`: the dispatch channel
content, batches received by `MetricWorker` whose spawned goroutine has not
yet executed `wg.Add(1)` (`pending`), batches whose worker is between
`wg.Add(1)` and its deferred decrements (`running`), the wait-group counter
`wg`, the atomic `workGroupCount` (`inflight`), the instrument registry, and
whether `flusher.Stop()` has completed and `Stop` has returned. -/
structure PipeState where
  channel : List (List Sample)
  pending : List (List Sample)
  running : List (List Sample)
  wg : Nat
  inflight : Int
  metrics : BuiltinMetrics
  flusherStopped : Bool
  stopReturned : Bool
deriving DecidableEq

/-- One scheduler step of the pipeline, following `MetricWorker`,
`flushMetrics` and `Stop`:
* `flush` — a flush (periodic or the final one inside `flusher.Stop()`)
  pushes the batches of a drained buffer onto the channel;
* `recv` — `MetricWorker` receives a batch and spawns its goroutine; the
  goroutine has not run yet, so neither `wg.Add(1)` nor the atomic increment
  has happened (they are the first statements *inside* the goroutine);
* `start` — a spawned goroutine begins: `wg.Add(1)` and
  `atomic.AddInt64(&workGroupCount, 1)`;
* `finish` — a running worker applies its batch through `HandleSample` and
  performs its deferred decrements;
* `stopFlusher` — `Stop` has executed `o.flusher.Stop()` (the final flush
  is modelled by `flush` steps occurring before this);
* `stopReturn` — `Stop`'s `o.wg.Wait()` returns because the wait-group
  counter is zero, and `Stop` returns. -/
inductive PipeStep : PipeState → PipeState → Prop where
  | flush (s : PipeState) (drained : List Sample) :
      s.flusherStopped = false →
      PipeStep s { s with channel := s.channel ++ flushMetrics drained }
  | recv (s : PipeState) (b : List Sample) (rest : List (List Sample)) :
      s.channel = b :: rest →
      PipeStep s { s with channel := rest, pending := s.pending ++ [b] }
  | start (s : PipeState) (b : List Sample) (rest : List (List Sample)) :
      s.pending = b :: rest →
      PipeStep s { s with pending := rest, running := s.running ++ [b],
                          wg := s.wg + 1, inflight := s.inflight + 1 }
  | finish (s : PipeState) (b : List Sample) (rest : List (List Sample)) :
      s.running = b :: rest →
      PipeStep s { s with running := rest, wg := s.wg - 1,
                          inflight := s.inflight - 1,
                          metrics := (processSamples s.metrics b).1 }
  | stopFlusher (s : PipeState) :
      s.stopReturned = false →
      PipeStep s { s with flusherStopped := true }
  | stopReturn (s : PipeState) :
      s.flusherStopped = true → s.wg = 0 →
      PipeStep s { s with stopReturned := true }

/-- The pipeline state right after `Start`: empty channel, no workers, fresh
registry. -/
def pipeInit : PipeState where
  channel := []
  pending := []
  running := []
  wg := 0
  inflight := 0
  metrics := initBuiltinMetrics
  flusherStopped := false
  stopReturned := false

/-- The single sample of the race trace. -/
def raceSample : Sample := ⟨"http_reqs", 0, 1⟩

/-- Race trace, after the final flush pushed one batch. -/
def pipeS1 : PipeState :=
  { pipeInit with channel := [[raceSample]] }

/-- Race trace, after `MetricWorker` received the batch and spawned its
goroutine, which has not yet run `wg.Add(1)`. -/
def pipeS2 : PipeState :=
  { pipeS1 with channel := [], pending := [[raceSample]] }

/-- Race trace, after `flusher.Stop()` completed. -/
def pipeS3 : PipeState :=
  { pipeS2 with flusherStopped := true }

/-- Race trace, after `Stop` returned: `wg.Wait()` saw a zero counter even
though a batch is still pending. -/
def pipeS4 : PipeState :=
  { pipeS3 with stopReturned := true }

/-- Race trace, after the worker goroutine finally ran `wg.Add(1)`: the
in-flight count is 1 although `Stop` has already returned. -/
def pipeS5 : PipeState :=
  { pipeS4 with pending := [], running := [[raceSample]], wg := 1, inflight := 1 }

/-- C8: refutation of the shutdown-drain guarantee.  Because `MetricWorker`
executes `wg.Add(1)` *inside* the spawned goroutine, the pipeline admits an
execution in which `Stop` has returned while a flush-produced batch is still
unprocessed: a reachable state has `stopReturned = true` with the atomic
in-flight count equal to 1, and a further step mutates the instrument
registry after `Stop` has returned.  This contradicts the claim that once
`Stop` returns the in-flight count is zero and no instrument is mutated
afterwards. -/
theorem stop_shutdown_race :
    ∃ s : PipeState, Relation.ReflTransGen PipeStep pipeInit s
      ∧ s.stopReturned = true ∧ s.inflight = 1
      ∧ ∃ s2 : PipeState, PipeStep s s2 ∧ s2.stopReturned = true
        ∧ s2.metrics ≠ s.metrics := by
  refine ⟨pipeS5, ?_, rfl, rfl, ?_⟩
  · exact Relation.ReflTransGen.head (PipeStep.flush pipeInit [raceSample] rfl)
      (Relation.ReflTransGen.head (PipeStep.recv pipeS1 [raceSample] [] rfl)
        (Relation.ReflTransGen.head (PipeStep.stopFlusher pipeS2 rfl)
          (Relation.ReflTransGen.head (PipeStep.stopReturn pipeS3 rfl rfl)
            (Relation.ReflTransGen.head (PipeStep.start pipeS4 [raceSample] [] rfl)
              Relation.ReflTransGen.refl))))
  · refine ⟨_, PipeStep.finish pipeS5 [raceSample] [] rfl, rfl, ?_⟩
    intro h
    have h2 := congrArg BuiltinMetrics.HTTPReqs h
    simp [pipeS5, pipeS4, pipeS3, pipeS2, pipeS1, pipeInit, processSamples,
      HandleSample, handleCounter, raceSample, initBuiltinMetrics] at h2

end XK6Dashboard
